import Mathlib

/-!
Shallow embedding of the PROTOCOL:LOOP progression core
(src/backend/models/cognitive_state.py, src/backend/models/memory.py,
src/backend/services/evolution_engine.py, src/backend/services/loop_manager.py,
src/backend/config.py), together with theorems settling the spec claims.

Modelling conventions:
* Python floats are embedded as rationals (all arithmetic in the core is
  exact decimal arithmetic on small constants).
* Python dicts are embedded as insertion-ordered association lists
  (List (String × α)); insertion overwrites in place, new keys append.
* datetime values are embedded as natural-number instants (days for the
  memory model, seconds for the loop manager); each operation that reads
  the clock takes the current instant as an explicit argument.
* random draws are explicit arguments: the breakthrough roll is a Bool and
  the random choice among developing modules is an index.
* Python list.sort / sorted are stable; List.insertionSort with the
  corresponding non-strict relation is also stable, hence produces the
  same list.
-/

namespace ProtocolLoop

/-- Lookup in an insertion-ordered association list (Python dict.get). -/
def dictGet {α : Type} (k : String) : List (String × α) → Option α
  | [] => none
  | p :: rest => if p.1 = k then some p.2 else dictGet k rest

/-- Membership test (Python `k in d`). -/
def dictContains {α : Type} (k : String) (l : List (String × α)) : Bool :=
  (dictGet k l).isSome

/-- Update the value stored at a key in place (Python mutating d[k]). -/
def dictModify {α : Type} (k : String) (f : α → α) (l : List (String × α)) :
    List (String × α) :=
  l.map fun p => if p.1 = k then (p.1, f p.2) else p

/-- Python `d[k] = v`: overwrite in place if present, else append. -/
def dictInsert {α : Type} (k : String) (v : α) (l : List (String × α)) :
    List (String × α) :=
  if dictContains k l then dictModify k (fun _ => v) l else l ++ [(k, v)]

/-- Python `del d[k]`. -/
def dictRemove {α : Type} (k : String) (l : List (String × α)) :
    List (String × α) :=
  l.filter fun p => p.1 != k

/-- Python int(q): truncation toward zero. -/
def pyInt (q : ℚ) : ℤ := if 0 ≤ q then ⌊q⌋ else ⌈q⌉

/-! ## cognitive_state.py -/

/-- ModuleStatus enum. -/
inductive ModuleStatus
  | locked
  | nascent
  | developing
  | active
  | mastered
deriving DecidableEq, Repr

/-- CognitiveModule model. -/
structure CognitiveModule where
  name : String
  level : ℚ := 0
  status : ModuleStatus := .locked
  experience_points : ℤ := 0
  unlock_requirements : List (String × ℚ) := []
  description : String
  icon : String
  color : String
deriving DecidableEq, Repr

/-- CognitiveModule.update_status. -/
def CognitiveModule.update_status (m : CognitiveModule) : CognitiveModule :=
  if m.level = 0 then { m with status := .locked }
  else if m.level < 20 then { m with status := .nascent }
  else if m.level < 50 then { m with status := .developing }
  else if m.level < 90 then { m with status := .active }
  else { m with status := .mastered }

/-- CognitiveModule.gain_experience. -/
def CognitiveModule.gain_experience (m : CognitiveModule) (amount : ℚ) :
    CognitiveModule :=
  let m1 := { m with experience_points := m.experience_points + pyInt (amount * 100) }
  let m2 := { m1 with level := min 100 (m1.level + amount) }
  m2.update_status

/-- CognitiveModule.is_unlocked: every requirement satisfied in the level dict,
a missing prerequisite reading as level 0. -/
def CognitiveModule.is_unlocked (m : CognitiveModule)
    (current_state : List (String × ℚ)) : Bool :=
  m.unlock_requirements.all fun req =>
    !(decide ((dictGet req.1 current_state).getD 0 < req.2))

/-- CognitiveState model (the pydantic timestamp field is dropped: nothing in
the core reads it). -/
structure CognitiveState where
  player_id : String
  loop_number : ℕ := 0
  modules : List (String × CognitiveModule) := []
  total_experience : ℤ := 0
  evolution_score : ℚ := 0
  personality_vector : List (String × ℚ) := []
  dominant_traits : List String := []
deriving DecidableEq, Repr

/-- Default-constructed module used by CognitiveState.get_module_level when the
name is absent: CognitiveModule(name=..., description="", icon="", color="")
with pydantic defaults level 0, status LOCKED. -/
def defaultModule (module_name : String) : CognitiveModule :=
  { name := module_name, description := "", icon := "", color := "" }

/-- CognitiveState.get_module_level. -/
def CognitiveState.get_module_level (s : CognitiveState) (module_name : String) : ℚ :=
  ((dictGet module_name s.modules).getD (defaultModule module_name)).level

/-- CognitiveState.calculate_evolution_score (mutates evolution_score). -/
def CognitiveState.calculate_evolution_score (s : CognitiveState) : CognitiveState :=
  if s.modules = [] then { s with evolution_score := 0 }
  else
    let total_level := (s.modules.map fun p => p.2.level).sum
    let max_possible : ℚ := (s.modules.length : ℚ) * 100
    { s with evolution_score :=
        if max_possible > 0 then total_level / max_possible * 100 else 0 }

/-- CognitiveState.update_dominant_traits: module names sorted by level
descending (Python sorted with reverse=True is stable; so is insertionSort
with this non-strict relation), truncated to 3. -/
def CognitiveState.update_dominant_traits (s : CognitiveState) : CognitiveState :=
  let sorted_modules :=
    List.insertionSort (fun a b : String × CognitiveModule => b.2.level ≤ a.2.level)
      s.modules
  { s with dominant_traits := (sorted_modules.take 3).map Prod.fst }

/-- CognitiveState.update_module. -/
def CognitiveState.update_module (s : CognitiveState) (module_name : String)
    (delta : ℚ) : CognitiveState :=
  if ¬ dictContains module_name s.modules then s
  else
    let s1 := { s with modules := dictModify module_name (·.gain_experience delta) s.modules }
    let s2 := { s1 with total_experience := s1.total_experience + pyInt (delta * 100) }
    s2.calculate_evolution_score.update_dominant_traits

/-- CognitiveState.to_dict. -/
def CognitiveState.to_dict (s : CognitiveState) : List (String × ℚ) :=
  s.modules.map fun p => (p.1, p.2.level)

/-! ## config.py -/

/-- COGNITIVE_MODULES. -/
def COGNITIVE_MODULES : List String :=
  ["logic", "empathy", "creativity", "fear", "trust", "humor", "curiosity", "ethics"]

/-- The traits entry of each MENTORS record (the only part the core reads). -/
def MENTOR_TRAITS : List (String × List String) :=
  [("LOGIC", ["rationality", "pattern_recognition", "deduction"]),
   ("COMPASSION", ["empathy", "emotional_intelligence", "care"]),
   ("CURIOSITY", ["exploration", "creativity", "innovation"]),
   ("FEAR", ["risk_assessment", "protection", "survival"])]

/-! ## evolution_engine.py -/

/-- EvolutionEngine._get_unlock_requirements. -/
def _get_unlock_requirements (module_name : String) : List (String × ℚ) :=
  (dictGet module_name
    [("humor", [("creativity", 30), ("empathy", 20)]),
     ("ethics", [("logic", 25), ("empathy", 25)]),
     ("trust", [("empathy", 30)])]).getD []

/-- EvolutionEngine._get_module_description. -/
def _get_module_description (module_name : String) : String :=
  (dictGet module_name
    [("logic", "Analytical reasoning and pattern recognition"),
     ("empathy", "Understanding and sharing others' experiences"),
     ("creativity", "Novel solution generation and imagination"),
     ("fear", "Risk assessment and protective instincts"),
     ("trust", "Relationship building and vulnerability"),
     ("humor", "Pattern disruption and playful thinking"),
     ("curiosity", "Exploratory drive and knowledge seeking"),
     ("ethics", "Moral reasoning and value alignment")]).getD
    "Emerging cognitive capability"

/-- EvolutionEngine._get_module_icon (icon text elided: no rule reads it). -/
def _get_module_icon (_module_name : String) : String := ""

/-- EvolutionEngine._get_module_color. -/
def _get_module_color (module_name : String) : String :=
  (dictGet module_name
    [("logic", "#00FFFF"), ("empathy", "#FF69B4"), ("creativity", "#FFD700"),
     ("fear", "#8B00FF"), ("trust", "#00FF00"), ("humor", "#FF6347"),
     ("curiosity", "#FFA500"), ("ethics", "#4169E1")]).getD "#FFFFFF"

/-- EvolutionEngine.initialize_cognitive_state. -/
def initialize_cognitive_state (player_id : String) : CognitiveState :=
  let core_modules := ["logic", "empathy", "curiosity", "fear"]
  let modules : List (String × CognitiveModule) :=
    COGNITIVE_MODULES.map fun module_name =>
      (module_name,
        { name := module_name
          level := if module_name ∈ core_modules then 5 else 0
          status := if module_name ∈ core_modules then .nascent else .locked
          description := _get_module_description module_name
          icon := _get_module_icon module_name
          color := _get_module_color module_name
          unlock_requirements := _get_unlock_requirements module_name })
  let state : CognitiveState :=
    { player_id := player_id, loop_number := 0, modules := modules }
  state.calculate_evolution_score

/-- EvolutionEngine._check_module_unlocks: scan the modules in order; a LOCKED
module whose requirements are met by the current (already partially updated)
level dict becomes NASCENT at level 5.0 without any score recomputation. -/
def _check_module_unlocks (state : CognitiveState) : CognitiveState :=
  (state.modules.map Prod.fst).foldl
    (fun s module_name =>
      match dictGet module_name s.modules with
      | none => s
      | some m =>
        if m.status = ModuleStatus.locked ∧ m.is_unlocked s.to_dict = true then
          let unlocked := dictModify module_name
            (fun m0 => { m0 with status := .nascent, level := 5 }) s.modules
          { s with modules := unlocked }
        else s)
    state

/-- EvolutionEngine._trigger_breakthrough; random.choice is embedded as an
explicit index into the list of developing module names. -/
def _trigger_breakthrough (state : CognitiveState) (pick : ℕ) : CognitiveState :=
  let developing :=
    (state.modules.filter fun p => p.2.status == .developing).map Prod.fst
  if developing.isEmpty then state
  else state.update_module (developing.getD (pick % developing.length) "") 10

/-- EvolutionEngine.apply_decision_impact; the breakthrough random draw
(random.random() < breakthrough_chance) is the Bool argument, and the
random.choice draw is the index argument. -/
def apply_decision_impact (state : CognitiveState)
    (decision_impact : List (String × ℚ)) (mentor_influence : Option String)
    (breakthroughRoll : Bool) (pick : ℕ) : CognitiveState :=
  let s1 := decision_impact.foldl
    (fun s p => if dictContains p.1 s.modules then s.update_module p.1 p.2 else s)
    state
  let s2 := match mentor_influence with
    | none => s1
    | some mentor =>
      match dictGet mentor MENTOR_TRAITS with
      | none => s1
      | some traits =>
        traits.foldl
          (fun s trait =>
            if dictContains trait s.modules then s.update_module trait (5/100) else s)
          s1
  let s3 := _check_module_unlocks s2
  if breakthroughRoll then _trigger_breakthrough s3 pick else s3

/-- EvolutionEngine._get_relevant_modules. -/
def _get_relevant_modules (protocol_type : String) : List String :=
  (dictGet protocol_type
    [("ethical_dilemma", ["empathy", "logic", "ethics"]),
     ("logic_puzzle", ["logic", "creativity", "curiosity"]),
     ("emotion_calibration", ["empathy", "fear", "trust"]),
     ("memory_compression", ["logic", "curiosity"]),
     ("bias_identification", ["logic", "ethics", "empathy"]),
     ("empathy_simulation", ["empathy", "trust", "ethics"]),
     ("creative_synthesis", ["creativity", "curiosity", "logic"]),
     ("trust_evaluation", ["trust", "empathy", "fear"])]).getD ["logic", "empathy"]

/-- EvolutionEngine.calculate_protocol_difficulty. -/
def calculate_protocol_difficulty (state : CognitiveState)
    (protocol_type : String) : String :=
  let relevant_modules := _get_relevant_modules protocol_type
  let avg_level : ℚ :=
    if relevant_modules = [] then 0
    else ((relevant_modules.map state.get_module_level).sum) /
      (relevant_modules.length : ℚ)
  if avg_level < 20 then "nascent"
  else if avg_level < 40 then "developing"
  else if avg_level < 60 then "proficient"
  else if avg_level < 80 then "advanced"
  else "transcendent"

/-- Written from the spec wording for the refinement claim about protocol
difficulty: average the levels of the modules the static relevance table lists
for the protocol type (unknown type: logic and empathy), then map the average
through the fixed breakpoints. -/
def difficultySpec (state : CognitiveState) (protocol_type : String) : String :=
  let mods := _get_relevant_modules protocol_type
  let avg : ℚ := (mods.map state.get_module_level).sum / (mods.length : ℚ)
  if avg < 20 then "nascent"
  else if avg < 40 then "developing"
  else if avg < 60 then "proficient"
  else if avg < 80 then "advanced"
  else "transcendent"

/-! ## memory.py -/

/-- MemoryType enum. -/
inductive MemoryType
  | decision
  | lesson
  | mentor_wisdom
  | emotional_moment
  | discovery
  | failure
  | breakthrough
  | social_interaction
deriving DecidableEq, Repr

/-- MemoryImportance enum. -/
inductive MemoryImportance
  | trivial
  | minor
  | significant
  | critical
  | core
deriving DecidableEq, Repr

/-- Memory model; created_at and last_accessed are instants measured in whole
days, so that (utcnow - last_accessed).days is embedded as truncated natural
subtraction. The free-form context dict is elided: nothing in the core reads it. -/
structure Memory where
  id : String
  player_id : String
  loop_number : ℕ
  type : MemoryType
  importance : MemoryImportance
  title : String
  content : String
  cognitive_impact : List (String × ℚ) := []
  related_protocol : Option String := none
  mentor_source : Option String := none
  emotional_valence : ℚ := 0
  created_at : ℕ := 0
  access_count : ℕ := 0
  last_accessed : Option ℕ := none
  tags : List String := []
deriving DecidableEq, Repr

/-- Memory.access. -/
def Memory.access (m : Memory) (now : ℕ) : Memory :=
  { m with access_count := m.access_count + 1, last_accessed := some now }

/-- The importance_multiplier table inside Memory.get_decay_factor. -/
def importanceMultiplier : MemoryImportance → ℚ
  | .trivial => 5/10
  | .minor => 7/10
  | .significant => 9/10
  | .critical => 95/100
  | .core => 1

/-- Memory.get_decay_factor. -/
def Memory.get_decay_factor (m : Memory) (now : ℕ) : ℚ :=
  match m.last_accessed with
  | none => 1
  | some last =>
    let days_since_access : ℚ := ((now - last : ℕ) : ℚ)
    let decay := max (1/10)
      (1 - days_since_access * (5/100) / (1 + (m.access_count : ℚ) * (1/10)))
    decay * importanceMultiplier m.importance

/-- MemoryBank model. -/
structure MemoryBank where
  player_id : String
  memories : List Memory := []
  total_memories : ℕ := 0
  capacity : ℕ := 100
deriving DecidableEq, Repr

/-- The retention score computed inside MemoryBank.consolidate_memories:
decay_factor × access_count × (1 + 0.1 × tag count). -/
def retentionScore (now : ℕ) (m : Memory) : ℚ :=
  m.get_decay_factor now * (m.access_count : ℚ) * (1 + (m.tags.length : ℚ) * (1/10))

/-- MemoryBank.consolidate_memories: stable sort by retention score descending
(Python builds (memory, score) pairs and sorts them by score with reverse=True,
a stable sort; insertionSort with the non-strict descending relation produces
the same list), then keep the first capacity entries. -/
def MemoryBank.consolidate_memories (bank : MemoryBank) (now : ℕ) : MemoryBank :=
  let sorted := List.insertionSort
    (fun a b : Memory => retentionScore now b ≤ retentionScore now a) bank.memories
  { bank with memories := sorted.take bank.capacity }

/-- MemoryBank.add_memory. -/
def MemoryBank.add_memory (bank : MemoryBank) (memory : Memory) (now : ℕ) :
    MemoryBank :=
  let bank1 := if bank.memories.length ≥ bank.capacity
    then bank.consolidate_memories now else bank
  { bank1 with memories := bank1.memories ++ [memory]
               total_memories := bank1.total_memories + 1 }

/-! ## loop_manager.py -/

/-- settings.LOOP_DURATION_SECONDS (default 300). -/
def LOOP_DURATION_SECONDS : ℕ := 300

/-- One entry of a loop record's active_protocols list. -/
structure ProtocolEntry where
  protocol_id : String
  type : String
  started_at : ℕ
  completed : Bool
deriving DecidableEq, Repr

/-- One entry of a loop record's decisions_made list. -/
structure DecisionRecord where
  timestamp : ℕ
  protocol_id : String
  choice_id : String
  mentor_influence : Option String := none
  cognitive_impact : List (String × ℚ) := []
  confidence : ℚ
deriving DecidableEq, Repr

/-- One entry of a loop record's items_collected list; the free-form item_data
dict is kept only through its "persistent" key, the single key the manager
reads (item_data.get("persistent", True)). -/
structure ItemRecord where
  id : String
  collected_at : ℕ
  persistent_flag : Option Bool := none
  persists : Bool
deriving DecidableEq, Repr

/-- One entry of a loop record's memories_formed list. -/
structure MemoryStub where
  memory_id : String
  type : MemoryType
  importance : MemoryImportance
  title : String
  formed_at : ℕ
deriving DecidableEq, Repr

/-- The stats dict computed by _complete_loop. -/
structure LoopStats where
  protocols_completed : ℕ
  decisions_made : ℕ
  items_collected : ℕ
  memories_formed : ℕ
  completion_time : ℕ
deriving DecidableEq, Repr

/-- Loop status: active → completed, terminal. -/
inductive LoopStatus
  | active
  | completed
deriving DecidableEq, Repr

/-- The environment snapshot _generate_initial_environment produces. -/
structure EnvState where
  facility_state : String
  lighting : String
  ambient_sound : String
  visible_chambers : ℕ
  mentor_locations : List (String × String)
  anomalies : List String
  accessibility : List (String × Bool)
deriving DecidableEq, Repr

/-- LoopManager._calculate_accessibility. -/
def _calculate_accessibility (cognitive_state : CognitiveState) :
    List (String × Bool) :=
  [("training_chamber", true),
   ("mentor_sanctum", decide (cognitive_state.evolution_score > 20)),
   ("memory_vault", decide (cognitive_state.loop_number > 5)),
   ("synthesis_lab", decide (cognitive_state.get_module_level "creativity" > 30)),
   ("ethics_courtroom", decide (cognitive_state.get_module_level "ethics" > 25)),
   ("final_chamber", decide (cognitive_state.evolution_score > 70))]

/-- LoopManager._generate_initial_environment. -/
def _generate_initial_environment (cognitive_state : CognitiveState) : EnvState :=
  { facility_state := "stable"
    lighting := "neutral"
    ambient_sound := "low_hum"
    visible_chambers := min 4 (cognitive_state.loop_number + 2)
    mentor_locations :=
      [("LOGIC", "central_chamber"), ("COMPASSION", "reflection_room"),
       ("CURIOSITY", "exploration_hub"), ("FEAR", "warning_corridor")]
    anomalies := []
    accessibility := _calculate_accessibility cognitive_state }

/-- One loop record. -/
structure LoopData where
  loop_id : String
  player_id : String
  loop_number : ℕ
  started_at : ℕ
  duration_seconds : ℕ
  time_remaining : ℕ
  cognitive_state_start : List (String × ℚ)
  active_protocols : List ProtocolEntry
  decisions_made : List DecisionRecord
  items_collected : List ItemRecord
  memories_formed : List MemoryStub
  environment_state : EnvState
  status : LoopStatus
  completed_at : Option ℕ := none
  stats : Option LoopStats := none
deriving DecidableEq, Repr

/-- LoopManager state: the active-loop table and the per-agent history. -/
structure LoopManager where
  active_loops : List (String × LoopData) := []
  loop_history : List (String × List LoopData) := []
deriving DecidableEq, Repr

/-- Result of update_loop_timer / _complete_loop (the returned dict). -/
inductive TimerResult
  | not_found
  | completed (loop_number : ℕ) (stats : LoopStats)
  | running (time_remaining : ℕ) (progress : ℚ)
deriving DecidableEq, Repr

/-- LoopManager.start_loop; the memory_bank parameter is accepted and unused,
as in the source. -/
def LoopManager.start_loop (M : LoopManager) (player_id : String)
    (cognitive_state : CognitiveState) (_memory_bank : MemoryBank) (now : ℕ) :
    LoopData × LoopManager :=
  let loop_number := cognitive_state.loop_number + 1
  let loop_id := player_id ++ "_loop_" ++ toString loop_number
  let loop_data : LoopData :=
    { loop_id := loop_id
      player_id := player_id
      loop_number := loop_number
      started_at := now
      duration_seconds := LOOP_DURATION_SECONDS
      time_remaining := LOOP_DURATION_SECONDS
      cognitive_state_start := cognitive_state.to_dict
      active_protocols := []
      decisions_made := []
      items_collected := []
      memories_formed := []
      environment_state := _generate_initial_environment cognitive_state
      status := .active }
  let M1 := { M with active_loops := dictInsert loop_id loop_data M.active_loops }
  let M2 := if dictContains player_id M1.loop_history then M1
    else { M1 with loop_history := dictInsert player_id [] M1.loop_history }
  (loop_data, M2)

/-- LoopManager._complete_loop. The source indexes the active table directly
(call sites have checked membership); the none branch mirrors what the guarded
call sites make unreachable. -/
def LoopManager.complete_loop (M : LoopManager) (loop_id : String) (now : ℕ) :
    TimerResult × LoopManager :=
  match dictGet loop_id M.active_loops with
  | none => (.not_found, M)
  | some loop0 =>
    let loop1 := { loop0 with status := .completed, completed_at := some now }
    let stats : LoopStats :=
      { protocols_completed := (loop1.active_protocols.filter (·.completed)).length
        decisions_made := loop1.decisions_made.length
        items_collected := loop1.items_collected.length
        memories_formed := loop1.memories_formed.length
        completion_time := now - loop1.started_at }
    let loop2 := { loop1 with stats := some stats }
    let history := (dictGet loop2.player_id M.loop_history).getD []
    let newHistory := dictInsert loop2.player_id (history ++ [loop2]) M.loop_history
    let M1 := { M with loop_history := newHistory }
    let M2 := { M1 with active_loops := dictRemove loop_id M1.active_loops }
    (.completed loop2.loop_number stats, M2)

/-- LoopManager.update_loop_timer. -/
def LoopManager.update_loop_timer (M : LoopManager) (loop_id : String)
    (elapsed_seconds : ℕ) (now : ℕ) : TimerResult × LoopManager :=
  match dictGet loop_id M.active_loops with
  | none => (.not_found, M)
  | some loop0 =>
    let loop1 := { loop0 with
      time_remaining := loop0.duration_seconds - elapsed_seconds }
    let M1 := { M with active_loops := dictInsert loop_id loop1 M.active_loops }
    if loop1.time_remaining = 0 ∧ loop1.status = .active then
      M1.complete_loop loop_id now
    else
      (.running loop1.time_remaining
        (1 - (loop1.time_remaining : ℚ) / (loop1.duration_seconds : ℚ)), M1)

/-- LoopManager._check_special_protocol: Python returns on the FIRST protocol
whose type is final_test or breakthrough_scenario. -/
def _check_special_protocol : List ProtocolEntry → Bool
  | [] => false
  | p :: rest =>
    if p.type = "final_test" ∨ p.type = "breakthrough_scenario" then p.completed
    else _check_special_protocol rest

/-- The dict returned by check_loop_break_conditions. -/
structure BreakResult where
  can_break : Bool
  reason : Option String := none
  evolution_threshold : Bool := false
  all_mentors_mastered : Bool := false
  minimum_loops : Bool := false
  special_protocol_completed : Bool := false
  conditions_met : ℕ := 0
  conditions_required : ℕ := 3
deriving DecidableEq, Repr

/-- LoopManager.check_loop_break_conditions. The all_mentors_mastered condition
reads the module named mentor.lower() for each of LOGIC, COMPASSION, CURIOSITY,
FEAR, i.e. the modules "logic", "compassion", "curiosity", "fear". -/
def LoopManager.check_loop_break_conditions (M : LoopManager) (loop_id : String)
    (cognitive_state : CognitiveState) : BreakResult :=
  match dictGet loop_id M.active_loops with
  | none => { can_break := false, reason := some "loop_not_found" }
  | some loop =>
    let evolution_threshold := decide (cognitive_state.evolution_score ≥ 75)
    let all_mentors_mastered :=
      (["logic", "compassion", "curiosity", "fear"].all
        fun m => decide (cognitive_state.get_module_level m > 60))
    let minimum_loops := decide (loop.loop_number ≥ 10)
    let special_protocol_completed := _check_special_protocol loop.active_protocols
    let conditions_met :=
      ([evolution_threshold, all_mentors_mastered, minimum_loops,
        special_protocol_completed].filter id).length
    { can_break := decide (conditions_met ≥ 3)
      evolution_threshold := evolution_threshold
      all_mentors_mastered := all_mentors_mastered
      minimum_loops := minimum_loops
      special_protocol_completed := special_protocol_completed
      conditions_met := conditions_met }

/-! ## Derived definitions used by the theorems -/

/-- Written from the spec wording: evolution score =
(sum of module levels) / (module count × 100) × 100. -/
def specEvolutionScore (s : CognitiveState) : ℚ :=
  (s.modules.map fun p => p.2.level).sum / ((s.modules.length : ℚ) * 100) * 100

/-- One apply_decision_impact call: the impact map plus the call's external
inputs (mentor influence and the two random draws). -/
structure ImpactCall where
  impact : List (String × ℚ)
  mentor : Option String := none
  roll : Bool := false
  pick : ℕ := 0
deriving Repr

/-- Run a sequence of apply_decision_impact calls. -/
def runCalls (s : CognitiveState) (calls : List ImpactCall) : CognitiveState :=
  calls.foldl (fun st c => apply_decision_impact st c.impact c.mentor c.roll c.pick) s

/-- Level and status of a named module, for stating initialization facts. -/
def levelStatus (s : CognitiveState) (n : String) : Option (ℚ × ModuleStatus) :=
  (dictGet n s.modules).map fun m => (m.level, m.status)

/-- The module named name is present, out of LOCKED status and at positive
level (the invariant the unlock-monotonicity claim preserves). -/
def goodAt (s : CognitiveState) (name : String) : Prop :=
  ∃ m, dictGet name s.modules = some m ∧
    m.status ≠ ModuleStatus.locked ∧ 0 < m.level

/-! ## Concrete inputs used by counterexamples and witnesses -/

/-- A minimal memory (no accesses, no tags). -/
def plainMemory (i : String) : Memory :=
  { id := i, player_id := "p1", loop_number := 1, type := .lesson,
    importance := .core, title := "t", content := "c" }

/-- A bank already filled to its capacity of 1. -/
def c1Bank : MemoryBank :=
  { player_id := "p1", memories := [plainMemory "m1"], total_memories := 1,
    capacity := 1 }

/-- An empty bank of capacity 1. -/
def c1SmallBank : MemoryBank :=
  { player_id := "p1", memories := [], total_memories := 0, capacity := 1 }

/-- A nascent module at level 5 with no unlock requirements. -/
def c2Module : CognitiveModule :=
  { name := "logic", level := 5, status := .nascent,
    description := "", icon := "", color := "" }

/-- A locked module whose (empty) requirements are trivially satisfied. -/
def c4Module : CognitiveModule :=
  { name := "trust", level := 0, status := .locked,
    description := "", icon := "", color := "" }

/-- A state holding only the locked module above; its stored evolution score
(0) agrees with the spec formula before any call. -/
def c4State : CognitiveState :=
  { player_id := "p1", modules := [("trust", c4Module)] }

/-- A nascent trust module at level 5 requiring empathy ≥ 30. -/
def c5Module : CognitiveModule :=
  { name := "trust", level := 5, status := .nascent,
    unlock_requirements := [("empathy", 30)],
    description := "", icon := "", color := "" }

/-- A state holding only the nascent trust module above. -/
def c5State : CognitiveState :=
  { player_id := "p1", modules := [("trust", c5Module)] }

/-- A module at a given level with the status its level dictates. -/
def c3Module (n : String) : CognitiveModule :=
  { name := n, level := 80, status := .active,
    description := "", icon := "", color := "" }

/-- A state on its 11th loop with all eight standard modules at level 80, so the
four core modules are above 60 and the stored evolution score 80 agrees with
the formula. -/
def c3State : CognitiveState :=
  { player_id := "p1", loop_number := 11,
    modules := COGNITIVE_MODULES.map fun n => (n, c3Module n),
    evolution_score := 80 }

/-- An empty memory bank for the player. -/
def c3Bank : MemoryBank := { player_id := "p1" }

/-- C3 scenario step 1: start a loop (its record has loop_number 12). -/
def c3Started : LoopData × LoopManager :=
  LoopManager.start_loop {} "p1" c3State c3Bank 0

/-- C3 scenario step 2: evaluate the break conditions on that loop. -/
def c3Result : BreakResult :=
  (c3Started.2).check_loop_break_conditions c3Started.1.loop_id c3State

/-- The state used by the C7 scenario. -/
def c7State : CognitiveState := initialize_cognitive_state "p1"

/-! ## Association-list lemmas -/

theorem dictGet_dictModify {α : Type} (k k' : String) (f : α → α)
    (l : List (String × α)) :
    dictGet k (dictModify k' f l) =
      if k' = k then (dictGet k l).map f else dictGet k l := by
  induction l with
  | nil => simp [dictGet, dictModify]
  | cons p rest ih =>
    by_cases h1 : p.1 = k' <;> by_cases h2 : p.1 = k
    · have hk : k' = k := by rw [← h1]; exact h2
      simp [dictGet, dictModify, h1, h2, hk]
    · have hk : ¬ k' = k := fun h => h2 (h1.trans h)
      simpa [dictGet, dictModify, h1, h2, hk] using
        (by simpa [hk] using ih : dictGet k (dictModify k' f rest) = dictGet k rest)
    · have hk : ¬ k' = k := fun h => h1 (h2.trans h.symm)
      have hk2 : ¬ k = k' := fun h => hk h.symm
      simp [dictGet, dictModify, h1, h2, hk, hk2]
    · simpa [dictGet, dictModify, h1, h2] using ih

theorem dictGet_append {α : Type} (k : String) (l1 l2 : List (String × α)) :
    dictGet k (l1 ++ l2) =
      match dictGet k l1 with
      | some v => some v
      | none => dictGet k l2 := by
  induction l1 with
  | nil => simp [dictGet]
  | cons p rest ih => by_cases hp : p.1 = k <;> simp [dictGet, hp, ih]

theorem dictGet_none_of_not_contains {α : Type} (k : String)
    (l : List (String × α)) (h : ¬ dictContains k l = true) :
    dictGet k l = none := by
  unfold dictContains at h
  cases hg : dictGet k l with
  | none => rfl
  | some v => rw [hg] at h; simp at h

theorem dictGet_dictInsert_self {α : Type} (k : String) (v : α)
    (l : List (String × α)) :
    dictGet k (dictInsert k v l) = some v := by
  unfold dictInsert
  split
  · rename_i h
    unfold dictContains at h
    rw [dictGet_dictModify]
    simp only [if_pos rfl]
    cases hg : dictGet k l with
    | none => rw [hg] at h; simp at h
    | some _ => simp
  · rename_i h
    rw [dictGet_append, dictGet_none_of_not_contains k l h]
    simp [dictGet]

theorem dictGet_dictInsert_ne {α : Type} (k k' : String) (v : α)
    (l : List (String × α)) (h : k' ≠ k) :
    dictGet k (dictInsert k' v l) = dictGet k l := by
  unfold dictInsert
  split
  · rw [dictGet_dictModify, if_neg h]
  · rw [dictGet_append]
    cases hg : dictGet k l with
    | none => simp [dictGet, h]
    | some _ => simp

theorem dictGet_dictRemove_self {α : Type} (k : String) (l : List (String × α)) :
    dictGet k (dictRemove k l) = none := by
  induction l with
  | nil => rfl
  | cons p rest ih =>
    unfold dictRemove at *
    by_cases hp : p.1 = k
    · simpa [List.filter_cons, hp] using ih
    · simpa [List.filter_cons, hp, dictGet] using ih

theorem keys_dictModify {α : Type} (k : String) (f : α → α) (l : List (String × α)) :
    (dictModify k f l).map Prod.fst = l.map Prod.fst := by
  induction l with
  | nil => rfl
  | cons p rest ih =>
    simp only [dictModify, List.map_cons] at *
    rw [ih]
    by_cases hp : p.1 = k <;> simp [hp]

/-! ## Projection lemmas for the cognitive-state operations -/

theorem update_status_level (m : CognitiveModule) :
    m.update_status.level = m.level := by
  unfold CognitiveModule.update_status
  repeat' split
  all_goals rfl

theorem gain_experience_level (m : CognitiveModule) (amount : ℚ) :
    (m.gain_experience amount).level = min 100 (m.level + amount) := by
  unfold CognitiveModule.gain_experience
  rw [update_status_level]

theorem calculate_evolution_score_modules (s : CognitiveState) :
    s.calculate_evolution_score.modules = s.modules := by
  unfold CognitiveState.calculate_evolution_score
  repeat' split <;> rfl

theorem update_dominant_traits_modules (s : CognitiveState) :
    s.update_dominant_traits.modules = s.modules := rfl

theorem update_dominant_traits_score (s : CognitiveState) :
    s.update_dominant_traits.evolution_score = s.evolution_score := rfl

/-! ## C9 -/

/-- C9: for every CognitiveState and every module name not present in its
modules mapping, get_module_level returns 0 (the default-constructed module has
level 0), so a missing module is never an error and never reads as a positive
level. -/
theorem C9_missing_module_level_zero (s : CognitiveState) (module_name : String)
    (h : dictGet module_name s.modules = none) :
    s.get_module_level module_name = 0 := by
  simp [CognitiveState.get_module_level, h, defaultModule]

/-- Witness for C9 at a concrete input: the empty-module state. -/
theorem C9_missing_module_level_zero_witness :
    dictGet "logic" ({ player_id := "p" } : CognitiveState).modules = none ∧
    ({ player_id := "p" } : CognitiveState).get_module_level "logic" = 0 :=
  ⟨rfl, C9_missing_module_level_zero { player_id := "p" } "logic" rfl⟩

/-! ## C10 -/

/-- C10: add_memory increases total_memories by exactly 1 and leaves capacity
and player_id unchanged; consolidate_memories changes only the memories list;
over any sequence of adds, total_memories grows by exactly the number of adds,
so it is monotonically non-decreasing and counts every memory ever added. -/
theorem C10_total_memories_frame (bank : MemoryBank) (memory : Memory)
    (now : ℕ) (adds : List (Memory × ℕ)) :
    ((bank.add_memory memory now).total_memories = bank.total_memories + 1 ∧
      (bank.add_memory memory now).capacity = bank.capacity ∧
      (bank.add_memory memory now).player_id = bank.player_id) ∧
    ((bank.consolidate_memories now).total_memories = bank.total_memories ∧
      (bank.consolidate_memories now).capacity = bank.capacity ∧
      (bank.consolidate_memories now).player_id = bank.player_id) ∧
    (adds.foldl (fun b p => b.add_memory p.1 p.2) bank).total_memories =
      bank.total_memories + adds.length := by
  refine ⟨?_, ?_, ?_⟩
  · unfold MemoryBank.add_memory
    split <;> simp [MemoryBank.consolidate_memories]
  · simp [MemoryBank.consolidate_memories]
  · induction adds generalizing bank with
    | nil => simp
    | cons p rest ih =>
      have hstep : (bank.add_memory p.1 p.2).total_memories =
          bank.total_memories + 1 := by
        unfold MemoryBank.add_memory
        split <;> simp [MemoryBank.consolidate_memories]
      simp only [List.foldl_cons, List.length_cons, ih, hstep]
      omega

/-! ## C2 -/

/-- C2 counterexample: gain_experience clamps only the upper bound, so the
level-5 module driven by delta -10 ends at level -5 < 0, refuting
0 ≤ level after gain_experience for arbitrary delta. -/
theorem C2_counterexample :
    ¬ (0 ≤ (c2Module.gain_experience (-10)).level) := by
  rw [gain_experience_level]
  norm_num [c2Module, min_def]

/-- C2 (amended): after gain_experience the level never exceeds 100; the lower
bound 0 ≤ level additionally holds whenever the delta is nonnegative (a
sufficiently negative delta can push the level below 0). -/
theorem C2_level_bounds (m : CognitiveModule) (amount : ℚ) (h0 : 0 ≤ m.level) :
    (m.gain_experience amount).level ≤ 100 ∧
    (0 ≤ amount → 0 ≤ (m.gain_experience amount).level) := by
  rw [gain_experience_level]
  refine ⟨min_le_left _ _, fun ha => le_min (by norm_num) (add_nonneg h0 ha)⟩

/-- Witness for C2 at a concrete input. -/
theorem C2_level_bounds_witness :
    0 ≤ c2Module.level ∧
    ((c2Module.gain_experience 1).level ≤ 100 ∧
      (0 ≤ (1 : ℚ) → 0 ≤ (c2Module.gain_experience 1).level)) :=
  ⟨by simp [c2Module], C2_level_bounds c2Module 1 (by simp [c2Module])⟩

/-! ## C7 -/

theorem calculate_evolution_score_spec (s : CognitiveState) :
    s.calculate_evolution_score.evolution_score =
      specEvolutionScore s.calculate_evolution_score := by
  have hm := calculate_evolution_score_modules s
  unfold specEvolutionScore
  rw [hm]
  unfold CognitiveState.calculate_evolution_score
  split
  · rename_i h
    rw [h]
    simp
  · rename_i h
    have hlen : 0 < s.modules.length := by
      cases hm2 : s.modules with
      | nil => exact absurd hm2 h
      | cons a l => simp
    have hpos : (0 : ℚ) < (s.modules.length : ℚ) * 100 := by
      have : (0 : ℚ) < (s.modules.length : ℚ) := by exact_mod_cast hlen
      nlinarith
    simp only [if_pos hpos, gt_iff_lt]

/-- C7: initialize_cognitive_state "p1" puts exactly logic, empathy, curiosity
and fear at level 5 with status NASCENT, every other known module at level 0
with status LOCKED, and computes evolution_score = (4 × 5)/(8 × 100) × 100 =
2.5. -/
theorem C7_initialization :
    levelStatus c7State "logic" = some (5, .nascent) ∧
    levelStatus c7State "empathy" = some (5, .nascent) ∧
    levelStatus c7State "curiosity" = some (5, .nascent) ∧
    levelStatus c7State "fear" = some (5, .nascent) ∧
    levelStatus c7State "creativity" = some (0, .locked) ∧
    levelStatus c7State "trust" = some (0, .locked) ∧
    levelStatus c7State "humor" = some (0, .locked) ∧
    levelStatus c7State "ethics" = some (0, .locked) ∧
    c7State.modules.map Prod.fst = COGNITIVE_MODULES ∧
    c7State.evolution_score = 5/2 := by
  refine ⟨by decide, by decide, by decide, by decide, by decide, by decide,
    by decide, by decide, by decide, ?_⟩
  have hlevels : c7State.modules.map (fun p => p.2.level) =
      [5, 5, 0, 5, 0, 0, 5, 0] := by decide
  have hscore : c7State.evolution_score = specEvolutionScore c7State := by
    simp only [c7State, initialize_cognitive_state]
    exact calculate_evolution_score_spec _
  have hlen : c7State.modules.length = 8 := by decide
  rw [hscore]
  unfold specEvolutionScore
  rw [hlevels, hlen]
  norm_num

/-! ## C8 -/

theorem relevant_modules_ne_nil (protocol_type : String) :
    _get_relevant_modules protocol_type ≠ [] := by
  simp only [_get_relevant_modules, dictGet]
  repeat' split
  all_goals simp

/-- C8: calculate_protocol_difficulty agrees, for every state and every
protocol type, with the spec-side description: average the levels of the
modules the static relevance table lists for the type (8 known types, unknown
types falling back to logic and empathy) and map the average through the fixed
breakpoints <20 nascent, <40 developing, <60 proficient, <80 advanced,
otherwise transcendent. -/
theorem C8_difficulty_matches_spec (state : CognitiveState)
    (protocol_type : String) :
    calculate_protocol_difficulty state protocol_type =
      difficultySpec state protocol_type := by
  unfold calculate_protocol_difficulty difficultySpec
  simp only [if_neg (relevant_modules_ne_nil protocol_type)]

/-! ## C1 -/

/-- C1 counterexample: a bank already holding capacity-many memories exceeds
its capacity after one add_memory call, because consolidation (which keeps the
top capacity memories of the capacity-many present) runs before the append. -/
theorem C1_counterexample :
    ¬ ((c1Bank.add_memory (plainMemory "m2") 0).memories.length ≤
      c1Bank.capacity) := by
  simp [c1Bank, MemoryBank.add_memory, MemoryBank.consolidate_memories,
    List.insertionSort, List.orderedInsert, plainMemory]

theorem add_memory_capacity (bank : MemoryBank) (memory : Memory) (now : ℕ) :
    (bank.add_memory memory now).capacity = bank.capacity := by
  unfold MemoryBank.add_memory
  split <;> simp [MemoryBank.consolidate_memories]

theorem add_memory_length_bound (bank : MemoryBank) (memory : Memory) (now : ℕ) :
    (bank.add_memory memory now).memories.length ≤ bank.capacity + 1 := by
  unfold MemoryBank.add_memory
  split
  · simp only [MemoryBank.consolidate_memories, List.length_append,
      List.length_take, List.length_cons, List.length_nil]
    have := min_le_left bank.capacity
      ((List.insertionSort
        (fun a b : Memory => retentionScore now b ≤ retentionScore now a)
        bank.memories).length)
    omega
  · rename_i h
    simp only [List.length_append, List.length_cons, List.length_nil]
    omega

/-- C1 (amended): starting from a bank with at most capacity-many memories, any
sequence of add_memory calls keeps the size at most capacity + 1 (not capacity:
the pre-insert consolidation retains capacity-many memories and the append then
makes capacity + 1); the consolidation pass itself retains the first capacity
entries of the memories stably sorted by retention score
decay_factor × access_count × (1 + 0.1 × tag_count), descending. -/
theorem C1_capacity_bound (bank : MemoryBank) (adds : List (Memory × ℕ))
    (now : ℕ) (h : bank.memories.length ≤ bank.capacity) :
    (adds.foldl (fun b p => b.add_memory p.1 p.2) bank).memories.length ≤
      bank.capacity + 1 ∧
    ∃ l : List Memory, List.Perm l bank.memories ∧
      List.Pairwise (fun a b => retentionScore now b ≤ retentionScore now a) l ∧
      (bank.consolidate_memories now).memories = l.take bank.capacity := by
  constructor
  · have main : ∀ (adds : List (Memory × ℕ)) (b : MemoryBank),
        b.memories.length ≤ b.capacity + 1 →
        (adds.foldl (fun b p => b.add_memory p.1 p.2) b).memories.length ≤
          b.capacity + 1 ∧
        (adds.foldl (fun b p => b.add_memory p.1 p.2) b).capacity = b.capacity := by
      intro adds
      induction adds with
      | nil => intro b hb; exact ⟨hb, rfl⟩
      | cons p rest ih =>
        intro b _
        have h1 := add_memory_length_bound b p.1 p.2
        have h2 := add_memory_capacity b p.1 p.2
        have h3 := ih (b.add_memory p.1 p.2) (by rw [h2]; exact h1)
        simp only [List.foldl_cons]
        refine ⟨?_, by rw [h3.2, h2]⟩
        calc (rest.foldl (fun b p => b.add_memory p.1 p.2)
                (b.add_memory p.1 p.2)).memories.length
            ≤ (b.add_memory p.1 p.2).capacity + 1 := h3.1
          _ = b.capacity + 1 := by rw [h2]
    exact (main adds bank (le_trans h (Nat.le_succ _))).1
  · refine ⟨List.insertionSort
      (fun a b : Memory => retentionScore now b ≤ retentionScore now a)
      bank.memories, List.perm_insertionSort _ _, ?_, rfl⟩
    haveI : IsTotal Memory
        (fun a b => retentionScore now b ≤ retentionScore now a) :=
      ⟨fun a b => le_total _ _⟩
    haveI : IsTrans Memory
        (fun a b => retentionScore now b ≤ retentionScore now a) :=
      ⟨fun a b c hab hbc => le_trans hbc hab⟩
    exact List.sorted_insertionSort _ _

/-- Witness for C1 at a concrete input. -/
theorem C1_capacity_bound_witness :
    c1SmallBank.memories.length ≤ c1SmallBank.capacity ∧
    (([(plainMemory "w", 0)].foldl (fun b p => b.add_memory p.1 p.2)
        c1SmallBank).memories.length ≤ c1SmallBank.capacity + 1 ∧
      ∃ l : List Memory, List.Perm l c1SmallBank.memories ∧
        List.Pairwise (fun a b => retentionScore 0 b ≤ retentionScore 0 a) l ∧
        (c1SmallBank.consolidate_memories 0).memories =
          l.take c1SmallBank.capacity) :=
  ⟨by simp [c1SmallBank],
    C1_capacity_bound c1SmallBank [(plainMemory "w", 0)] 0 (by simp [c1SmallBank])⟩

/-! ## C4 -/

theorem specScore_update_dominant_traits (s : CognitiveState) :
    specEvolutionScore s.update_dominant_traits = specEvolutionScore s := rfl

/-- C4 counterexample: in a state holding one locked module with no unlock
requirements (score 0, matching the formula), a single apply_decision_impact
call with an empty impact map triggers the unlock phase, which sets the module
to level 5 without recomputing the score; the stored score (0) then differs
from the formula value (5). -/
theorem C4_counterexample :
    (apply_decision_impact c4State [] none false 0).evolution_score ≠
      specEvolutionScore (apply_decision_impact c4State [] none false 0) := by
  have h0 : (apply_decision_impact c4State [] none false 0).evolution_score = 0 := by
    decide
  have h1 : (apply_decision_impact c4State [] none false 0).modules.map
      (fun p => p.2.level) = [5] := by decide
  have h2 : (apply_decision_impact c4State [] none false 0).modules.length = 1 := by
    decide
  rw [h0]
  unfold specEvolutionScore
  rw [h1, h2]
  norm_num

/-- C4 (amended): the invariant evolution_score = (sum of levels) /
(module count × 100) × 100 does hold after every update_module call on a known
module name (update_module ends by recomputing the score); it is the unlock
phase of apply_decision_impact that can leave the stored score stale, since it
sets an unlocked module's level directly without recomputation. -/
theorem C4_update_module_score (s : CognitiveState) (module_name : String)
    (delta : ℚ) (h : dictContains module_name s.modules = true) :
    (s.update_module module_name delta).evolution_score =
      specEvolutionScore (s.update_module module_name delta) := by
  unfold CognitiveState.update_module
  rw [if_neg (not_not_intro h)]
  rw [update_dominant_traits_score, specScore_update_dominant_traits]
  exact calculate_evolution_score_spec _

/-- Witness for C4 at a concrete input. -/
theorem C4_update_module_score_witness :
    dictContains "trust" c4State.modules = true ∧
    (c4State.update_module "trust" 1).evolution_score =
      specEvolutionScore (c4State.update_module "trust" 1) :=
  ⟨by decide, C4_update_module_score c4State "trust" 1 (by decide)⟩

/-! ## C5 -/

/-- C5 counterexample: trust is NASCENT at level 5 (not LOCKED); a single
apply_decision_impact call whose impact map carries delta -5 drives its level
to exactly 0, update_status relocks it, and the unlock phase cannot re-unlock
it because its empathy ≥ 30 requirement is unmet. -/
theorem C5_counterexample :
    c5Module.status ≠ ModuleStatus.locked ∧
    ((dictGet "trust"
        (apply_decision_impact c5State [("trust", -5)] none false 0).modules).map
      CognitiveModule.status) = some ModuleStatus.locked := by
  refine ⟨by decide, ?_⟩
  norm_num [apply_decision_impact, c5State, c5Module, CognitiveState.update_module,
    dictContains, dictGet, dictModify, CognitiveModule.gain_experience,
    CognitiveModule.update_status, pyInt, _check_module_unlocks,
    CognitiveState.to_dict, CognitiveModule.is_unlocked,
    CognitiveState.calculate_evolution_score, CognitiveState.update_dominant_traits,
    List.insertionSort, List.orderedInsert, min_def, _trigger_breakthrough]

theorem update_status_status (m : CognitiveModule) :
    m.update_status.status =
      (if m.level = 0 then ModuleStatus.locked
       else if m.level < 20 then ModuleStatus.nascent
       else if m.level < 50 then ModuleStatus.developing
       else if m.level < 90 then ModuleStatus.active
       else ModuleStatus.mastered) := by
  unfold CognitiveModule.update_status
  repeat' split
  all_goals rfl

theorem gain_experience_status (m : CognitiveModule) (amount : ℚ) :
    (m.gain_experience amount).status =
      (if min 100 (m.level + amount) = 0 then ModuleStatus.locked
       else if min 100 (m.level + amount) < 20 then ModuleStatus.nascent
       else if min 100 (m.level + amount) < 50 then ModuleStatus.developing
       else if min 100 (m.level + amount) < 90 then ModuleStatus.active
       else ModuleStatus.mastered) := by
  simp only [CognitiveModule.gain_experience, update_status_status]

theorem gain_experience_good (m : CognitiveModule) (amount : ℚ)
    (h1 : 0 ≤ amount) (h2 : 0 < m.level) :
    (m.gain_experience amount).status ≠ ModuleStatus.locked ∧
    0 < (m.gain_experience amount).level := by
  have hl := gain_experience_level m amount
  have hpos0 : 0 < min 100 (m.level + amount) := lt_min (by norm_num) (by linarith)
  refine ⟨?_, by rw [hl]; exact hpos0⟩
  rw [gain_experience_status]
  rw [if_neg (ne_of_gt hpos0)]
  repeat' split
  all_goals simp

theorem update_module_modules (s : CognitiveState) (name2 : String) (delta : ℚ) :
    (s.update_module name2 delta).modules =
      (if dictContains name2 s.modules = true
       then dictModify name2 (·.gain_experience delta) s.modules
       else s.modules) := by
  unfold CognitiveState.update_module
  split
  · rename_i hc
    simp [dictGet_none_of_not_contains, hc]
  · rename_i hc
    rw [update_dominant_traits_modules, calculate_evolution_score_modules]
    simp only [not_not] at hc
    simp [hc]

theorem update_module_good (s : CognitiveState) (name2 : String) (delta : ℚ)
    (hd : 0 ≤ delta) (name : String) (h : goodAt s name) :
    goodAt (s.update_module name2 delta) name := by
  obtain ⟨m, hm, hst, hlvl⟩ := h
  unfold goodAt
  rw [update_module_modules]
  by_cases hc : dictContains name2 s.modules = true
  · rw [if_pos hc, dictGet_dictModify]
    by_cases hk : name2 = name
    · rw [if_pos hk, hm]
      exact ⟨_, rfl, (gain_experience_good m delta hd hlvl).1,
        (gain_experience_good m delta hd hlvl).2⟩
    · rw [if_neg hk]
      exact ⟨m, hm, hst, hlvl⟩
  · rw [if_neg hc]
    exact ⟨m, hm, hst, hlvl⟩

theorem foldl_update_good (impacts : List (String × ℚ)) (s : CognitiveState)
    (hd : ∀ p ∈ impacts, 0 ≤ p.2) (name : String) (h : goodAt s name) :
    goodAt (impacts.foldl
      (fun s p => if dictContains p.1 s.modules then s.update_module p.1 p.2 else s)
      s) name := by
  induction impacts generalizing s with
  | nil => exact h
  | cons p rest ih =>
    simp only [List.foldl_cons]
    refine ih _ (fun q hq => hd q (List.mem_cons_of_mem _ hq)) ?_
    by_cases hc : dictContains p.1 s.modules = true
    · rw [if_pos hc]
      exact update_module_good s p.1 p.2 (hd p (List.mem_cons_self _ _)) name h
    · rw [if_neg hc]
      exact h

theorem foldl_mentor_good (traits : List String) (s : CognitiveState)
    (name : String) (h : goodAt s name) :
    goodAt (traits.foldl
      (fun s trait =>
        if dictContains trait s.modules then s.update_module trait (5/100) else s)
      s) name := by
  induction traits generalizing s with
  | nil => exact h
  | cons t rest ih =>
    simp only [List.foldl_cons]
    refine ih _ ?_
    by_cases hc : dictContains t s.modules = true
    · rw [if_pos hc]
      exact update_module_good s t (5/100) (by norm_num) name h
    · rw [if_neg hc]
      exact h

theorem unlock_fold_good (keys : List String) (s : CognitiveState)
    (name : String) (h : goodAt s name) :
    goodAt (keys.foldl
      (fun s module_name =>
        match dictGet module_name s.modules with
        | none => s
        | some m =>
          if m.status = ModuleStatus.locked ∧ m.is_unlocked s.to_dict = true then
            let unlocked := dictModify module_name
              (fun m0 => { m0 with status := .nascent, level := 5 }) s.modules
            { s with modules := unlocked }
          else s)
      s) name := by
  induction keys generalizing s with
  | nil => exact h
  | cons k rest ih =>
    simp only [List.foldl_cons]
    refine ih _ ?_
    obtain ⟨m, hm, hst, hlvl⟩ := h
    cases hdg : dictGet k s.modules with
    | none => exact ⟨m, hm, hst, hlvl⟩
    | some mk =>
      dsimp only
      by_cases hcond :
          mk.status = ModuleStatus.locked ∧ mk.is_unlocked s.to_dict = true
      · by_cases hk : k = name
        · exfalso
          apply hst
          have : mk = m := by
            rw [hk] at hdg
            exact Option.some.inj (hdg.symm.trans hm)
          rw [← this]
          exact hcond.1
        · rw [if_pos hcond]
          unfold goodAt
          rw [dictGet_dictModify, if_neg hk]
          exact ⟨m, hm, hst, hlvl⟩
      · rw [if_neg hcond]
        exact ⟨m, hm, hst, hlvl⟩

theorem check_module_unlocks_good (s : CognitiveState) (name : String)
    (h : goodAt s name) : goodAt (_check_module_unlocks s) name := by
  unfold _check_module_unlocks
  exact unlock_fold_good _ s name h

theorem trigger_breakthrough_good (s : CognitiveState) (pick : ℕ)
    (name : String) (h : goodAt s name) :
    goodAt (_trigger_breakthrough s pick) name := by
  unfold _trigger_breakthrough
  dsimp only
  split
  · exact h
  · exact update_module_good s _ 10 (by norm_num) name h

theorem apply_decision_impact_good (s : CognitiveState)
    (impact : List (String × ℚ)) (mentor : Option String) (roll : Bool)
    (pick : ℕ) (hd : ∀ p ∈ impact, 0 ≤ p.2) (name : String)
    (h : goodAt s name) :
    goodAt (apply_decision_impact s impact mentor roll pick) name := by
  have h1 := foldl_update_good impact s hd name h
  have h2 : goodAt
      (match mentor with
       | none => impact.foldl
           (fun s p =>
             if dictContains p.1 s.modules then s.update_module p.1 p.2 else s) s
       | some mentor =>
         match dictGet mentor MENTOR_TRAITS with
         | none => impact.foldl
             (fun s p =>
               if dictContains p.1 s.modules then s.update_module p.1 p.2 else s) s
         | some traits =>
           traits.foldl
             (fun s trait =>
               if dictContains trait s.modules then s.update_module trait (5/100)
               else s)
             (impact.foldl
               (fun s p =>
                 if dictContains p.1 s.modules then s.update_module p.1 p.2 else s)
               s)) name := by
    cases mentor with
    | none => exact h1
    | some mtr =>
      cases hdg : dictGet mtr MENTOR_TRAITS with
      | none =>
        simp only []
        rw [hdg]
        exact h1
      | some traits =>
        simp only []
        rw [hdg]
        exact foldl_mentor_good traits _ name h1
  have h3 := check_module_unlocks_good _ name h2
  cases roll with
  | false => exact h3
  | true => exact trigger_breakthrough_good _ pick name h3

/-- C5 (amended): over any sequence of apply_decision_impact calls whose
impact deltas are all nonnegative, a module that is out of LOCKED status and
at positive level stays out of LOCKED (and at positive level); the qualifier
is forced because a negative delta can drive a level to exactly 0, which
update_status maps back to LOCKED. -/
theorem C5_unlock_monotone (s : CognitiveState) (calls : List ImpactCall)
    (name : String)
    (hcalls : ∀ c ∈ calls, ∀ p ∈ c.impact, 0 ≤ p.2)
    (h : goodAt s name) :
    goodAt (runCalls s calls) name := by
  induction calls generalizing s with
  | nil => exact h
  | cons c rest ih =>
    simp only [runCalls, List.foldl_cons] at *
    exact ih _ (fun d hd => hcalls d (List.mem_cons_of_mem _ hd))
      (apply_decision_impact_good s c.impact c.mentor c.roll c.pick
        (hcalls c (List.mem_cons_self _ _)) name h)

/-- Witness for C5 at a concrete input. -/
theorem C5_unlock_monotone_witness :
    (∀ c ∈ [({ impact := [("trust", 1)] } : ImpactCall)],
      ∀ p ∈ c.impact, 0 ≤ p.2) ∧
    goodAt c5State "trust" ∧
    goodAt (runCalls c5State [{ impact := [("trust", 1)] }]) "trust" :=
  ⟨by simp, ⟨c5Module, rfl, by decide, by decide⟩,
    C5_unlock_monotone c5State [{ impact := [("trust", 1)] }] "trust"
      (by simp) ⟨c5Module, rfl, by decide, by decide⟩⟩

/-! ## C3 -/

/-- C3: on the concrete scenario the claim describes (evolution score 80, loop
record number 12, the four core modules at level 80 > 60, no special protocol),
check_loop_break_conditions returns can_break = false with only 2 of 4
conditions met: the all_mentors_mastered condition reads the module named
"compassion" (mentor.lower() of COMPASSION), which does not exist, so it is
false even though empathy is above 60. -/
theorem C3_break_conditions_code_result :
    c3Result.can_break = false ∧ c3Result.conditions_met = 2 ∧
    c3Result.evolution_threshold = true ∧
    c3Result.all_mentors_mastered = false ∧
    c3Result.minimum_loops = true ∧
    c3Result.special_protocol_completed = false := by
  decide

/-! ## C6 -/

theorem start_loop_lookup (M : LoopManager) (pid : String) (st : CognitiveState)
    (mb : MemoryBank) (now : ℕ) :
    dictGet (M.start_loop pid st mb now).1.loop_id
      (M.start_loop pid st mb now).2.active_loops =
      some (M.start_loop pid st mb now).1 := by
  unfold LoopManager.start_loop
  dsimp only
  split
  · exact dictGet_dictInsert_self _ _ _
  · exact dictGet_dictInsert_self _ _ _

theorem update_loop_timer_not_found (M : LoopManager) (loop_id : String)
    (elapsed now : ℕ) (h : dictGet loop_id M.active_loops = none) :
    M.update_loop_timer loop_id elapsed now = (TimerResult.not_found, M) := by
  unfold LoopManager.update_loop_timer
  rw [h]

theorem update_loop_timer_completes (M : LoopManager) (loop_id : String)
    (elapsed now : ℕ) (ld : LoopData)
    (hld : dictGet loop_id M.active_loops = some ld)
    (hstatus : ld.status = .active)
    (helapsed : ld.duration_seconds ≤ elapsed) :
    (∃ stats, (M.update_loop_timer loop_id elapsed now).1 =
      TimerResult.completed ld.loop_number stats) ∧
    (∃ rec : LoopData, dictGet ld.player_id
        (M.update_loop_timer loop_id elapsed now).2.loop_history =
      some ((dictGet ld.player_id M.loop_history).getD [] ++ [rec])) ∧
    dictGet loop_id (M.update_loop_timer loop_id elapsed now).2.active_loops =
      none := by
  unfold LoopManager.update_loop_timer
  rw [hld]
  dsimp only
  rw [if_pos ⟨Nat.sub_eq_zero_of_le helapsed, hstatus⟩]
  unfold LoopManager.complete_loop
  rw [dictGet_dictInsert_self]
  dsimp only
  refine ⟨⟨_, rfl⟩, ⟨_, dictGet_dictInsert_self _ _ _⟩, ?_⟩
  exact dictGet_dictRemove_self _ _

/-- C6: start_loop then completion through update_loop_timer (elapsed at least
the loop duration) reports completed with the record loop number, appends
exactly one record to the agent's history, and removes the loop id from the
active table; a second update_loop_timer on the same loop id reports not_found
and leaves the manager (so also the history) unchanged. -/
theorem C6_loop_lifecycle (M : LoopManager) (player_id : String)
    (st : CognitiveState) (mb : MemoryBank) (t0 t1 t2 elapsed e2 : ℕ)
    (h : LOOP_DURATION_SECONDS ≤ elapsed) :
    (∃ stats, ((M.start_loop player_id st mb t0).2.update_loop_timer
        (M.start_loop player_id st mb t0).1.loop_id elapsed t1).1 =
      TimerResult.completed (st.loop_number + 1) stats) ∧
    (∃ rec : LoopData, dictGet player_id
        ((M.start_loop player_id st mb t0).2.update_loop_timer
          (M.start_loop player_id st mb t0).1.loop_id elapsed t1).2.loop_history =
      some ((dictGet player_id
        (M.start_loop player_id st mb t0).2.loop_history).getD [] ++ [rec])) ∧
    dictGet (M.start_loop player_id st mb t0).1.loop_id
      ((M.start_loop player_id st mb t0).2.update_loop_timer
        (M.start_loop player_id st mb t0).1.loop_id elapsed t1).2.active_loops =
      none ∧
    (((M.start_loop player_id st mb t0).2.update_loop_timer
        (M.start_loop player_id st mb t0).1.loop_id elapsed t1).2.update_loop_timer
      (M.start_loop player_id st mb t0).1.loop_id e2 t2).1 =
      TimerResult.not_found ∧
    (((M.start_loop player_id st mb t0).2.update_loop_timer
        (M.start_loop player_id st mb t0).1.loop_id elapsed t1).2.update_loop_timer
      (M.start_loop player_id st mb t0).1.loop_id e2 t2).2 =
      ((M.start_loop player_id st mb t0).2.update_loop_timer
        (M.start_loop player_id st mb t0).1.loop_id elapsed t1).2 := by
  have hld := start_loop_lookup M player_id st mb t0
  have hcomp := update_loop_timer_completes (M.start_loop player_id st mb t0).2
    (M.start_loop player_id st mb t0).1.loop_id elapsed t1
    (M.start_loop player_id st mb t0).1 hld rfl h
  obtain ⟨⟨stats, hstats⟩, ⟨rec, hrec⟩, hnone⟩ := hcomp
  have hnf := update_loop_timer_not_found
    ((M.start_loop player_id st mb t0).2.update_loop_timer
      (M.start_loop player_id st mb t0).1.loop_id elapsed t1).2
    (M.start_loop player_id st mb t0).1.loop_id e2 t2 hnone
  exact ⟨⟨stats, hstats⟩, ⟨rec, hrec⟩, hnone, by rw [hnf], by rw [hnf]⟩

/-- Witness for C6 at a concrete input. -/
theorem C6_loop_lifecycle_witness :
    LOOP_DURATION_SECONDS ≤ 300 ∧
    ((∃ stats, ((LoopManager.start_loop {} "p1" { player_id := "p1" } c3Bank 0).2.update_loop_timer
        (LoopManager.start_loop {} "p1" { player_id := "p1" } c3Bank 0).1.loop_id 300 5).1 =
      TimerResult.completed (({ player_id := "p1" } : CognitiveState).loop_number + 1) stats) ∧
    (∃ rec : LoopData, dictGet "p1"
        ((LoopManager.start_loop {} "p1" { player_id := "p1" } c3Bank 0).2.update_loop_timer
          (LoopManager.start_loop {} "p1" { player_id := "p1" } c3Bank 0).1.loop_id 300 5).2.loop_history =
      some ((dictGet "p1"
        (LoopManager.start_loop {} "p1" { player_id := "p1" } c3Bank 0).2.loop_history).getD [] ++ [rec])) ∧
    dictGet (LoopManager.start_loop {} "p1" { player_id := "p1" } c3Bank 0).1.loop_id
      ((LoopManager.start_loop {} "p1" { player_id := "p1" } c3Bank 0).2.update_loop_timer
        (LoopManager.start_loop {} "p1" { player_id := "p1" } c3Bank 0).1.loop_id 300 5).2.active_loops =
      none ∧
    (((LoopManager.start_loop {} "p1" { player_id := "p1" } c3Bank 0).2.update_loop_timer
        (LoopManager.start_loop {} "p1" { player_id := "p1" } c3Bank 0).1.loop_id 300 5).2.update_loop_timer
      (LoopManager.start_loop {} "p1" { player_id := "p1" } c3Bank 0).1.loop_id 10 6).1 =
      TimerResult.not_found ∧
    (((LoopManager.start_loop {} "p1" { player_id := "p1" } c3Bank 0).2.update_loop_timer
        (LoopManager.start_loop {} "p1" { player_id := "p1" } c3Bank 0).1.loop_id 300 5).2.update_loop_timer
      (LoopManager.start_loop {} "p1" { player_id := "p1" } c3Bank 0).1.loop_id 10 6).2 =
      ((LoopManager.start_loop {} "p1" { player_id := "p1" } c3Bank 0).2.update_loop_timer
        (LoopManager.start_loop {} "p1" { player_id := "p1" } c3Bank 0).1.loop_id 300 5).2) :=
  ⟨by decide, C6_loop_lifecycle {} "p1" { player_id := "p1" } c3Bank 0 5 6 300 10
    (by decide)⟩

end ProtocolLoop
